import Mathlib

/-!
Verification of the shared ONDC/Beckn protocol layer of the
Frappe-ONDC-Sellerapp repository.

The file has two kinds of definitions:
  * direct shallow embeddings of executable source code
    (the action vocabulary of src/shared/middleware/auth.js, the
    ONDC Order status-update form script, the ONDC Settings form script);
  * models of components whose source files declare only module-level
    TODO stubs (Signer/Verifier, Registry Client, Callback Correlator,
    inbound endpoint handling); those are modelled from the design
    document, and every such definition is marked `Modelled from the
    spec:` in its doc comment.
-/

namespace ONDC

/-! ## Action vocabulary (src/shared/middleware/auth.js, lines 46-51) -/

/-- Embeds the constant `ACTIONS` of src/shared/middleware/auth.js:
the fixed, closed vocabulary of protocol actions. -/
def ACTIONS : List String :=
  ["search", "select", "init", "confirm", "status",
   "track", "cancel", "update", "rating", "support"]

/-- Embeds the constant `CALLBACKS` of src/shared/middleware/auth.js:
`ACTIONS.map(action => "on_" + action)`. -/
def CALLBACKS : List String := ACTIONS.map (fun action => "on_" ++ action)

/-! ## ONDC Order status machine
(src/unnamed/part_001 lines 31-46 and src/unnamed/part_002 lines 56-77,
identical `next_status` tables in the Update Status form handler) -/

/-- Embeds the `next_status` lookup table of the Update Status button
handler: maps the current `order_status` to the list of statuses offered
in the prompt; statuses absent from the table have no entry. -/
def next_status (s : String) : Option (List String) :=
  if s = "Pending" then some ["Accepted", "Cancelled"]
  else if s = "Accepted" then some ["In-progress", "Cancelled"]
  else if s = "In-progress" then some ["Completed", "Cancelled"]
  else none

/-- Embeds the transitions offered by the Update Status action as a whole:
the button is only added when `order_status` is neither `Completed` nor
`Cancelled` (part_001 line 31 / part_002 line 56), and its prompt offers
`next_status[order_status]`; when no button is shown no transition is
offered, rendered as the empty list. -/
def updateStatusOffered (s : String) : List String :=
  if s = "Completed" ∨ s = "Cancelled" then []
  else (next_status s).getD []

/-! ## ONDC Settings environment-change handler
(src/ondc_seller_app/modules/ondc_seller/doctype/ondc_settings/ondc_settings.js
lines 32-37 and src/unnamed/part_000 lines 257-261, identical handlers) -/

/-- State of an ONDC Settings document as seen by the form script: the
`environment` field whose change fires the handler, the `webhook_url`
field the handler writes, and two representative further fields standing
for the rest of the document. -/
structure OndcSettings where
  environment : String
  webhook_url : String
  subscriber_id : String
  registry_url : String
deriving DecidableEq

/-- Embeds the `environment` change handler of the ONDC Settings form
script: `if (frm.doc.webhook_url) frm.set_value("webhook_url", "")` —
clears the webhook URL when it is non-empty, otherwise does nothing. -/
def onEnvironmentChange (d : OndcSettings) : OndcSettings :=
  if d.webhook_url ≠ "" then
    ⟨d.environment, "", d.subscriber_id, d.registry_url⟩
  else d

/-! ## Signer / Verifier
src/shared/crypto/signing.js declares
`createSigningString` / `signRequest` / `buildAuthorizationHeader` /
`parseAuthorizationHeader` / `verifySignature` only as TODO stubs, so the
component is modelled from the design document (§4.1). -/

/-- Modelled from the spec: the canonical digest computed over the payload
bytes (§4.1). The implementation being absent, the digest is idealized as
a collision-free function of the byte list (here the identity, which is
injective); tamper detection relies only on that injectivity. -/
def digest (payload : List Nat) : List Nat := payload

/-- Modelled from the spec: derivation of the Ed25519 public key from a
private key. The key arithmetic being absent from the source, keys are
symbolic: a public key is identified by its private counterpart. -/
def derivePub (priv : Nat) : Nat := priv

/-- A key pair is valid when the public half is the one derived from the
private half. -/
def validKeyPair (priv pub : Nat) : Prop := pub = derivePub priv

/-- Modelled from the spec: a detached Ed25519 signature, idealized
symbolically as the digest it covers together with the public counterpart
of the key that produced it (§4.1: deterministic signature over a digest
of the payload). -/
structure Signature where
  sigDigest : List Nat
  sigSigner : Nat
deriving DecidableEq

/-- Modelled from the spec: `sign(payloadBytes, privateKey)` (§4.1),
a deterministic signature over the digest of the payload. -/
def sign (payload : List Nat) (priv : Nat) : Signature :=
  ⟨digest payload, derivePub priv⟩

/-- Modelled from the spec: the parsed content of an Authorization header
(§4.1): key identifier `participantId|keyVersion|ed25519`, validity
window, and the detached signature. -/
structure AuthHeader where
  participantId : String
  keyVersion : String
  signature : Signature
  createdAt : Nat
  expiresAt : Nat
deriving DecidableEq

/-- Modelled from the spec: the transportable credential string, abstracted
to its parse result: either a well-formed header or unparseable text. -/
inductive HeaderString where
  | wellFormed (h : AuthHeader)
  | garbage (raw : String)
deriving DecidableEq

/-- Modelled from the spec: `buildAuthHeader(participantId, keyVersion,
signature, createdAt, expiresAt) -> headerString` (§4.1), pure
formatting of a well-formed credential. -/
def buildAuthHeader (pid kv : String) (sig : Signature)
    (created expires : Nat) : HeaderString :=
  .wellFormed ⟨pid, kv, sig, created, expires⟩

/-- Modelled from the spec: the result vocabulary of `verify` (§4.1). -/
inductive VerifyResult where
  | Valid
  | InvalidSignature
  | Expired
  | MalformedHeader
  | UnknownSigner
deriving DecidableEq

/-- Modelled from the spec: `verify(payloadBytes, headerString,
resolvePublicKey) -> VerifyResult` (§4.1): parse the header
(`MalformedHeader` on failure), resolve the public key of the signer
(`UnknownSigner` when the resolver returns nothing), check the validity
window against the current time with a symmetric clock-skew leeway (a
configuration value, passed as a parameter), recompute the digest and
check the signature; both gates must pass for `Valid`. -/
def verify (payload : List Nat) (hs : HeaderString)
    (resolvePublicKey : String → String → Option Nat)
    (now leeway : Nat) : VerifyResult :=
  match hs with
  | .garbage _ => .MalformedHeader
  | .wellFormed h =>
    match resolvePublicKey h.participantId h.keyVersion with
    | none => .UnknownSigner
    | some pub =>
      if h.createdAt ≤ now + leeway ∧ now ≤ h.expiresAt + leeway then
        if h.signature.sigDigest = digest payload ∧ h.signature.sigSigner = pub then
          .Valid
        else .InvalidSignature
      else .Expired

/-! ## Registry Client
src/shared/utils/registry-client.js declares `lookup` /
`lookupWithCache` / `getPublicKey` / `getSubscribersByDomainAndCity` /
`subscribe` only as TODO stubs, so the component is modelled from the
design document (§4.2). -/

/-- Modelled from the spec: a network participant as resolved by the
registry (§3): identifier, signing public key, callback URL, served
domains and localities, lifecycle status. -/
structure Participant where
  subscriberId : String
  signingPublicKey : Nat
  callbackUrl : String
  domains : List String
  cities : List String
  lifecycle : String
deriving DecidableEq

/-- Modelled from the spec: a registry cache entry (§3): the cached
participant and its fetch timestamp; freshness is judged against a TTL
on read. -/
structure CacheEntry where
  participant : Participant
  fetchedAt : Nat
deriving DecidableEq

/-- Modelled from the spec: the observable outcome of one upstream
registry call: a participant, a definitive miss, or unreachability. -/
inductive UpstreamResult where
  | found (p : Participant)
  | notFound
  | unreachable
deriving DecidableEq

/-- Modelled from the spec: a successful lookup result: the participant
plus the `stale` flag marking a grace-period fallback copy (§4.2). -/
structure LookupRes where
  participant : Participant
  stale : Bool
deriving DecidableEq

/-- Modelled from the spec: the failure modes of `lookup` (§4.2):
`NotFound` (upstream has no such participant) and `Unavailable`
(upstream unreachable and no cached copy to fall back on). -/
inductive LookupError where
  | NotFound
  | Unavailable
deriving DecidableEq

/-- Modelled from the spec: `lookup(participantId)` for one key (§4.2):
return the cached participant if fresh (age < TTL) without contacting
upstream; otherwise fetch upstream; when upstream is unreachable fall
back to the cached copy — however stale — flagged `stale := true`, and
fail with `Unavailable` only when no cached copy exists. -/
def lookup (cache : Option CacheEntry) (upstream : UpstreamResult)
    (now ttl : Nat) : Except LookupError LookupRes :=
  match cache with
  | some ce =>
    if now - ce.fetchedAt < ttl then .ok ⟨ce.participant, false⟩
    else
      match upstream with
      | .found p => .ok ⟨p, false⟩
      | .notFound => .error .NotFound
      | .unreachable => .ok ⟨ce.participant, true⟩
  | none =>
    match upstream with
    | .found p => .ok ⟨p, false⟩
    | .notFound => .error .NotFound
    | .unreachable => .error .Unavailable

/-! ## Registry cache refresh coalescing (singleflight)
Modelled from the spec (§4.2, §5.1): concurrent `lookup` calls for the
same key while a refresh is in flight collapse into a single upstream
call and share its result. The interleaving is rendered as an explicit
event sequence on the per-key refresh state: any number of `arrive`
events (one per concurrent caller) followed by the completion of the one
in-flight upstream fetch. -/

/-- Modelled from the spec: per-key refresh state of the registry cache
(§5.1): the cached value, whether an upstream fetch is in flight, the
callers awaiting that fetch, how many upstream fetches were issued, and
the results delivered to callers so far. -/
structure SFState where
  cache : Option Participant
  inflight : Bool
  waiters : List Nat
  fetchCount : Nat
  delivered : List (Nat × Participant)
deriving DecidableEq

/-- Modelled from the spec: the per-key state before any call: nothing
cached, no fetch in flight, no fetch issued. -/
def initState : SFState := ⟨none, false, [], 0, []⟩

/-- Modelled from the spec: one `lookup` call by caller `c` arriving at
the per-key state (§4.2, §5.1): a cache hit is answered immediately; on
a miss with a refresh already in flight the caller joins its waiters
instead of issuing a duplicate upstream call; on a cold miss exactly one
upstream fetch is issued and the caller waits for it. -/
def arrive (c : Nat) (s : SFState) : SFState :=
  match s.cache with
  | some p => ⟨s.cache, s.inflight, s.waiters, s.fetchCount, (c, p) :: s.delivered⟩
  | none =>
    if s.inflight then ⟨none, true, c :: s.waiters, s.fetchCount, s.delivered⟩
    else ⟨none, true, [c], s.fetchCount + 1, s.delivered⟩

/-- Modelled from the spec: completion of the in-flight upstream fetch
with participant `p`: the cache is filled and every waiting caller
receives this one shared result (§5.1). -/
def completeFetch (p : Participant) (s : SFState) : SFState :=
  ⟨some p, false, [], s.fetchCount, s.waiters.map (fun c => (c, p)) ++ s.delivered⟩

/-- Processes a sequence of concurrent arrivals in order. -/
def runArrivals (cs : List Nat) (s : SFState) : SFState :=
  cs.foldl (fun s c => arrive c s) s

/-! ## Callback Correlator
No source file implements the correlator (the design document §4.4 is its
only description), so it is modelled from the spec. -/

/-- Modelled from the spec: the per-correlation lifecycle states
(§4.4): `pending → resolved` or `pending → expired`. -/
inductive EntryState where
  | pending
  | resolved
  | expired
deriving DecidableEq

/-- Modelled from the spec: one correlation entry (§3): expected reply
count, the replies collected so far as responder-id/reply pairs (unique
per responder, in arrival order), the deadline, and the lifecycle
state. -/
structure Entry where
  expected : Nat
  replies : List (String × String)
  deadline : Nat
  lstate : EntryState
deriving DecidableEq

/-- The correlation table: correlation id to entry, as an association
list owned by the Correlator. -/
def Table := List (String × Entry)

/-- Looks up the entry for a correlation id. -/
def findEntry : Table → String → Option Entry
  | [], _ => none
  | p :: rest, cid => if p.fst = cid then some p.snd else findEntry rest cid

/-- Replaces the entry stored under a correlation id. -/
def setEntry (t : Table) (cid : String) (x : Entry) : Table :=
  t.map (fun p => if p.fst = cid then (cid, x) else p)

/-- Modelled from the spec: the failure mode of `register` (§4.4). -/
inductive RegisterError where
  | DuplicateCorrelation
deriving DecidableEq

/-- Modelled from the spec: `register(correlationId, expectedCount,
deadline)` (§4.4): creates a pending entry, failing with
`DuplicateCorrelation` when one already exists. -/
def register (t : Table) (cid : String) (expectedCount deadline : Nat) :
    Except RegisterError Table :=
  match findEntry t cid with
  | some _ => .error .DuplicateCorrelation
  | none => .ok ((cid, ⟨expectedCount, [], deadline, .pending⟩) :: t)

/-- Modelled from the spec: the result vocabulary of `accept` (§4.4). -/
inductive AcceptResult where
  | Accepted
  | Completed
  | LateOrUnknown
  | DuplicateResponder
deriving DecidableEq

/-- Modelled from the spec: `accept(correlationId, responderId, reply)`
(§4.4) at time `now`: unknown correlation ids are `LateOrUnknown`; a
pending entry whose deadline has passed expires and the reply is
`LateOrUnknown`; a second reply from a responder already recorded — also
against a resolved entry still within its grace window — is
`DuplicateResponder` and is ignored, the first reply winning; otherwise
the reply is recorded, and the entry resolves with `Completed` exactly
when the expected count is reached, staying pending with `Accepted`
otherwise. -/
def accept (t : Table) (cid rid reply : String) (now : Nat) :
    AcceptResult × Table :=
  match findEntry t cid with
  | none => (.LateOrUnknown, t)
  | some e =>
    match e.lstate with
    | .expired => (.LateOrUnknown, t)
    | .resolved =>
      if rid ∈ e.replies.map Prod.fst then (.DuplicateResponder, t)
      else (.LateOrUnknown, t)
    | .pending =>
      if e.deadline ≤ now then
        (.LateOrUnknown, setEntry t cid ⟨e.expected, e.replies, e.deadline, .expired⟩)
      else if rid ∈ e.replies.map Prod.fst then (.DuplicateResponder, t)
      else
        let rs := e.replies ++ [(rid, reply)]
        if e.expected ≤ rs.length then
          (.Completed, setEntry t cid ⟨e.expected, rs, e.deadline, .resolved⟩)
        else
          (.Accepted, setEntry t cid ⟨e.expected, rs, e.deadline, .pending⟩)

/-- Modelled from the spec: the timer-scheduled expiry sweep (§5): every
pending entry whose deadline has been reached transitions to `expired`,
keeping the replies collected so far. -/
def tick (t : Table) (now : Nat) : Table :=
  t.map (fun p =>
    if p.snd.lstate = .pending ∧ p.snd.deadline ≤ now then
      (p.fst, ⟨p.snd.expected, p.snd.replies, p.snd.deadline, .expired⟩)
    else p)

/-! ## Inbound endpoint handling
Modelled from the spec (§6, §7): src/shared/middleware/auth.js declares
`authMiddleware` only as a TODO stub, so the inbound pipeline —
verification gate, synchronous acknowledgement, asynchronous callback
emission — is modelled from the design document. -/

/-- Modelled from the spec: the synchronous response of an inbound action
endpoint (§6): an acknowledgement, or a structured negative
acknowledgement carrying the specific error kind. -/
inductive SyncResponse where
  | ack
  | nack (err : String)
deriving DecidableEq

/-- Modelled from the spec: one asynchronous callback emission: the
correlation id it belongs to, the callback action name, and the outbound
payload. -/
structure Emission where
  emissionCid : String
  emissionAction : String
  emissionPayload : String
deriving DecidableEq

/-- Maps a verification failure to the error kind carried by the
negative acknowledgement (§7 taxonomy). -/
def errCode : VerifyResult → String
  | .Valid => "ok"
  | .InvalidSignature => "invalid_signature"
  | .Expired => "expired"
  | .MalformedHeader => "malformed_header"
  | .UnknownSigner => "unknown_signer"

/-- Modelled from the spec: handling of one inbound signed message
(§6, §7): the action must belong to the fixed vocabulary and the
signature must verify; any validation failure is rejected synchronously
with a negative acknowledgement carrying the error kind and never
reaches business logic; on success the endpoint acknowledges and runs
the single business hook, whose outbound payload (when produced) becomes
the asynchronous callback emission for the same correlation id under the
callback form of the action. -/
def handleInbound (payload : List Nat) (hs : HeaderString)
    (resolvePublicKey : String → String → Option Nat) (now leeway : Nat)
    (cid action : String)
    (business : String → List Nat → Option String) :
    SyncResponse × List Emission :=
  if action ∈ ACTIONS then
    if verify payload hs resolvePublicKey now leeway = .Valid then
      match business action payload with
      | some outP => (.ack, [⟨cid, "on_" ++ action, outP⟩])
      | none => (.ack, [])
    else (.nack (errCode (verify payload hs resolvePublicKey now leeway)), [])
  else (.nack "unsupported_action", [])

/-! ## Theorems -/

/-- C6. Callback action naming: the action vocabulary is the fixed closed
ten-element set, the callback list is computed by prepending `on_` to
each action, and it is exactly the image of the action list under that
prefixing, element by element. -/
theorem callback_naming :
    ACTIONS = ["search", "select", "init", "confirm", "status",
               "track", "cancel", "update", "rating", "support"] ∧
    CALLBACKS = ACTIONS.map (fun action => "on_" ++ action) ∧
    CALLBACKS = ["on_search", "on_select", "on_init", "on_confirm", "on_status",
                 "on_track", "on_cancel", "on_update", "on_rating", "on_support"] ∧
    (∀ a ∈ ACTIONS, ("on_" ++ a) ∈ CALLBACKS) ∧
    (∀ c ∈ CALLBACKS, ∃ a ∈ ACTIONS, c = "on_" ++ a) := by
  refine ⟨rfl, rfl, by decide, by decide, by decide⟩

/-- C9. ONDC Order status machine: Update Status offers exactly
Pending→{Accepted, Cancelled}, Accepted→{In-progress, Cancelled},
In-progress→{Completed, Cancelled}; Completed and Cancelled offer no
transition (terminal), and Pending offers neither Completed nor
In-progress directly. -/
theorem order_status_machine :
    updateStatusOffered "Pending" = ["Accepted", "Cancelled"] ∧
    updateStatusOffered "Accepted" = ["In-progress", "Cancelled"] ∧
    updateStatusOffered "In-progress" = ["Completed", "Cancelled"] ∧
    updateStatusOffered "Completed" = [] ∧
    updateStatusOffered "Cancelled" = [] ∧
    "Completed" ∉ updateStatusOffered "Pending" ∧
    "In-progress" ∉ updateStatusOffered "Pending" := by
  decide

/-- C10. ONDC Settings environment change: after the handler fires,
`webhook_url` is empty; the handler changes no other field; and when
`webhook_url` was already empty the document is left entirely
unchanged. -/
theorem settings_environment_change (d : OndcSettings) :
    (onEnvironmentChange d).webhook_url = "" ∧
    (onEnvironmentChange d).environment = d.environment ∧
    (onEnvironmentChange d).subscriber_id = d.subscriber_id ∧
    (onEnvironmentChange d).registry_url = d.registry_url ∧
    (d.webhook_url = "" → onEnvironmentChange d = d) := by
  unfold onEnvironmentChange
  by_cases h : d.webhook_url = "" <;> simp [h]

/-- C10 witness: the theorem evaluated on a concrete staging document
with a non-empty webhook URL, and on one with an empty webhook URL. -/
theorem settings_environment_change_witness :
    (onEnvironmentChange ⟨"staging", "https://seller.example/webhook", "seller1", "https://reg"⟩).webhook_url = "" ∧
    onEnvironmentChange ⟨"preprod", "", "seller1", "https://reg"⟩ =
      ⟨"preprod", "", "seller1", "https://reg"⟩ :=
  ⟨(settings_environment_change ⟨"staging", "https://seller.example/webhook", "seller1", "https://reg"⟩).1,
   (settings_environment_change ⟨"preprod", "", "seller1", "https://reg"⟩).2.2.2.2 rfl⟩

/-- C4 counterexample: a cache entry fetched at time 10, read at time 12
with TTL 100, is still fresh; with the upstream unreachable, `lookup`
returns it flagged `stale := false`, not `stale := true` as the claim
states for every cache entry. -/
theorem stale_fallback_cex :
    lookup (some ⟨⟨"seller1", 5, "https://cb", ["ONDC:RET10"], ["std:080"], "active"⟩, 10⟩)
        .unreachable 12 100 =
      .ok ⟨⟨"seller1", 5, "https://cb", ["ONDC:RET10"], ["std:080"], "active"⟩, false⟩ ∧
    lookup (some ⟨⟨"seller1", 5, "https://cb", ["ONDC:RET10"], ["std:080"], "active"⟩, 10⟩)
        .unreachable 12 100 ≠
      .ok ⟨⟨"seller1", 5, "https://cb", ["ONDC:RET10"], ["std:080"], "active"⟩, true⟩ := by
  refine ⟨rfl, ?_⟩
  intro h
  simp [lookup] at h

/-- C4 (amended). Stale-cache fallback: with the upstream unreachable, a
cache entry whose TTL has elapsed is returned flagged `stale := true`
rather than failing; a still-fresh entry is returned as an ordinary
cache hit with `stale := false`; and `lookup` fails hard with
`Unavailable` exactly when no cache entry exists. -/
theorem stale_cache_fallback (ce : CacheEntry) (now ttl : Nat) :
    (¬ now - ce.fetchedAt < ttl →
      lookup (some ce) .unreachable now ttl = .ok ⟨ce.participant, true⟩) ∧
    (now - ce.fetchedAt < ttl →
      lookup (some ce) .unreachable now ttl = .ok ⟨ce.participant, false⟩) ∧
    lookup none .unreachable now ttl = .error .Unavailable := by
  unfold lookup
  by_cases h : now - ce.fetchedAt < ttl <;> simp [h]

/-- C4 witness: the amended theorem evaluated on a concrete expired entry
(fetched at 0, read at 100, TTL 10) and on the empty cache. -/
theorem stale_cache_fallback_witness :
    lookup (some ⟨⟨"seller1", 5, "https://cb", ["ONDC:RET10"], ["std:080"], "active"⟩, 0⟩)
        .unreachable 100 10 =
      .ok ⟨⟨"seller1", 5, "https://cb", ["ONDC:RET10"], ["std:080"], "active"⟩, true⟩ ∧
    lookup none .unreachable 100 10 = .error .Unavailable :=
  ⟨(stale_cache_fallback ⟨⟨"seller1", 5, "https://cb", ["ONDC:RET10"], ["std:080"], "active"⟩, 0⟩ 100 10).1 (by decide),
   (stale_cache_fallback ⟨⟨"seller1", 5, "https://cb", ["ONDC:RET10"], ["std:080"], "active"⟩, 0⟩ 100 10).2.2⟩

/-- Helper: writing value `v` at a valid index `i` makes `v` the element
read back at `i`. -/
theorem getElem?_set_of_lt (l : List Nat) (i v : Nat) (h : i < l.length) :
    (l.set i v)[i]? = some v := by
  induction l generalizing i with
  | nil => simp at h
  | cons a t ih =>
    cases i with
    | zero => simp [List.set]
    | succ j =>
      simp only [List.set, List.getElem?_cons_succ]
      exact ih j (by simpa using h)

/-- Helper: overwriting a valid index with a genuinely different value
changes the list. -/
theorem set_ne_self (l : List Nat) (i v : Nat) (h : i < l.length)
    (hv : v ≠ l[i]) : l.set i v ≠ l := by
  intro he
  have h1 : (l.set i v)[i]? = some v := getElem?_set_of_lt l i v h
  rw [he, List.getElem?_eq_getElem h] at h1
  exact hv (Option.some.inj h1).symm

/-- C1. Sign/verify round-trip: for every payload `P`, every valid key
pair, and every validity window containing the verification time,
verifying `P` against the authorization header built from
`sign P priv`, with a resolver returning `pub`, yields `Valid`. -/
theorem sign_verify_roundtrip (P : List Nat) (priv pub : Nat)
    (pid kv : String) (created expires now leeway : Nat)
    (hkey : validKeyPair priv pub)
    (h1 : created ≤ now) (h2 : now ≤ expires) :
    verify P (buildAuthHeader pid kv (sign P priv) created expires)
      (fun _ _ => some pub) now leeway = .Valid := by
  unfold validKeyPair at hkey
  show (if created ≤ now + leeway ∧ now ≤ expires + leeway then
          if digest P = digest P ∧ derivePub priv = pub then
            VerifyResult.Valid
          else VerifyResult.InvalidSignature
        else VerifyResult.Expired) = VerifyResult.Valid
  rw [if_pos ⟨Nat.le_trans h1 (Nat.le_add_right now leeway),
              Nat.le_trans h2 (Nat.le_add_right expires leeway)⟩,
      if_pos ⟨rfl, hkey.symm⟩]

/-- C1 witness: the round-trip evaluated on the concrete payload
`[1, 2, 3]`, key pair `(7, 7)`, window `[10, 20]`, at time 12 with
leeway 0. -/
theorem sign_verify_roundtrip_witness :
    verify [1, 2, 3] (buildAuthHeader "seller1" "k1" (sign [1, 2, 3] 7) 10 20)
      (fun _ _ => some 7) 12 0 = .Valid :=
  sign_verify_roundtrip [1, 2, 3] 7 7 "seller1" "k1" 10 20 12 0 rfl
    (by decide) (by decide)

/-- C2. Tamper detection: for every payload `P` signed with a valid key
pair, changing any single byte of `P` before verification — the other
gates (well-formed header, known signer, time window) all passing —
yields `InvalidSignature`, never `Valid`. -/
theorem tamper_detection (P : List Nat) (i v : Nat) (priv pub : Nat)
    (pid kv : String) (created expires now leeway : Nat)
    (hkey : validKeyPair priv pub)
    (hi : i < P.length) (hv : v ≠ P[i])
    (h1 : created ≤ now) (h2 : now ≤ expires) :
    verify (P.set i v) (buildAuthHeader pid kv (sign P priv) created expires)
      (fun _ _ => some pub) now leeway = .InvalidSignature := by
  unfold validKeyPair at hkey
  show (if created ≤ now + leeway ∧ now ≤ expires + leeway then
          if digest P = digest (P.set i v) ∧ derivePub priv = pub then
            VerifyResult.Valid
          else VerifyResult.InvalidSignature
        else VerifyResult.Expired) = VerifyResult.InvalidSignature
  rw [if_pos ⟨Nat.le_trans h1 (Nat.le_add_right now leeway),
              Nat.le_trans h2 (Nat.le_add_right expires leeway)⟩,
      if_neg]
  intro hc
  exact set_ne_self P i v hi hv (hc.1.symm)

/-- C2 witness: verification of `[1, 2, 3]` with byte 1 changed to 9,
signed by the key pair `(7, 7)`, inside the window `[10, 20]` at
time 12 with leeway 0, yields `InvalidSignature`. -/
theorem tamper_detection_witness :
    verify ([1, 2, 3].set 1 9)
      (buildAuthHeader "seller1" "k1" (sign [1, 2, 3] 7) 10 20)
      (fun _ _ => some 7) 12 0 = .InvalidSignature :=
  tamper_detection [1, 2, 3] 1 9 7 7 "seller1" "k1" 10 20 12 0 rfl
    (by decide) (by decide) (by decide) (by decide)

/-- Helper: while a refresh is in flight and the key is uncached, every
further arrival joins the waiters and no further upstream fetch is
issued. -/
theorem runArrivals_inflight (cs : List Nat) (ws : List Nat) (n : Nat)
    (d : List (Nat × Participant)) :
    runArrivals cs ⟨none, true, ws, n, d⟩ = ⟨none, true, cs.reverse ++ ws, n, d⟩ := by
  induction cs generalizing ws with
  | nil => simp [runArrivals]
  | cons c cs ih =>
    show runArrivals cs (arrive c ⟨none, true, ws, n, d⟩) = _
    rw [show arrive c ⟨none, true, ws, n, d⟩ = ⟨none, true, c :: ws, n, d⟩ from rfl,
        ih (c :: ws)]
    simp

/-- C7. Cache coalescing (singleflight): for every participant value and
every nonempty burst of concurrent lookup callers arriving while the key
is uncached (the first one issuing the refresh, the rest arriving while
it is in flight), exactly one upstream fetch is issued, and once that
fetch completes every caller of the burst has received its result. -/
theorem singleflight_coalesce (c : Nat) (cs : List Nat) (p : Participant) :
    (completeFetch p (runArrivals (c :: cs) initState)).fetchCount = 1 ∧
    ∀ x ∈ c :: cs, (x, p) ∈ (completeFetch p (runArrivals (c :: cs) initState)).delivered := by
  have h0 : runArrivals (c :: cs) initState = ⟨none, true, cs.reverse ++ [c], 1, []⟩ := by
    show runArrivals cs (arrive c initState) = _
    rw [show arrive c initState = ⟨none, true, [c], 1, []⟩ from rfl,
        runArrivals_inflight cs [c] 1 []]
  rw [h0]
  refine ⟨rfl, ?_⟩
  intro x hx
  show (x, p) ∈ (cs.reverse ++ [c]).map (fun c => (c, p)) ++ []
  have hx2 : x ∈ cs.reverse ++ [c] := by
    rcases List.mem_cons.mp hx with h | h
    · subst h; simp
    · simp [h]
  simpa using List.mem_map_of_mem (fun c => (c, p)) hx2

/-- C7 witness: the burst of callers 1, 2, 3 on a cold key: one upstream
fetch, and caller 2 receives the fetched participant. -/
theorem singleflight_coalesce_witness :
    (completeFetch ⟨"seller1", 5, "https://cb", ["ONDC:RET10"], ["std:080"], "active"⟩
      (runArrivals [1, 2, 3] initState)).fetchCount = 1 ∧
    ((2 : Nat), (⟨"seller1", 5, "https://cb", ["ONDC:RET10"], ["std:080"], "active"⟩ : Participant)) ∈
      (completeFetch ⟨"seller1", 5, "https://cb", ["ONDC:RET10"], ["std:080"], "active"⟩
        (runArrivals [1, 2, 3] initState)).delivered :=
  ⟨(singleflight_coalesce 1 [2, 3] ⟨"seller1", 5, "https://cb", ["ONDC:RET10"], ["std:080"], "active"⟩).1,
   (singleflight_coalesce 1 [2, 3] ⟨"seller1", 5, "https://cb", ["ONDC:RET10"], ["std:080"], "active"⟩).2
     2 (by decide)⟩

/-- C3. Correlator completion: for a correlation registered with
`expectedCount = 3` and any three distinct responders replying before
the deadline, the first two accepts return `Accepted`, the third returns
`Completed` and resolves the entry with the three replies; whereas after
only the first two accepts, the deadline sweep transitions the entry to
`expired` with exactly those two replies collected. -/
theorem correlator_completion (cid r1 r2 r3 q1 q2 q3 : String)
    (dl t1 t2 t3 te : Nat)
    (h12 : r1 ≠ r2) (h13 : r1 ≠ r3) (h23 : r2 ≠ r3)
    (ht1 : t1 < dl) (ht2 : t2 < dl) (ht3 : t3 < dl) (hte : dl ≤ te) :
    register [] cid 3 dl = .ok [(cid, ⟨3, [], dl, .pending⟩)] ∧
    accept [(cid, ⟨3, [], dl, .pending⟩)] cid r1 q1 t1 =
      (.Accepted, [(cid, ⟨3, [(r1, q1)], dl, .pending⟩)]) ∧
    accept [(cid, ⟨3, [(r1, q1)], dl, .pending⟩)] cid r2 q2 t2 =
      (.Accepted, [(cid, ⟨3, [(r1, q1), (r2, q2)], dl, .pending⟩)]) ∧
    accept [(cid, ⟨3, [(r1, q1), (r2, q2)], dl, .pending⟩)] cid r3 q3 t3 =
      (.Completed, [(cid, ⟨3, [(r1, q1), (r2, q2), (r3, q3)], dl, .resolved⟩)]) ∧
    tick [(cid, ⟨3, [(r1, q1), (r2, q2)], dl, .pending⟩)] te =
      [(cid, ⟨3, [(r1, q1), (r2, q2)], dl, .expired⟩)] := by
  refine ⟨by simp [register, findEntry], ?_, ?_, ?_, ?_⟩
  · simp [accept, findEntry, setEntry, Nat.not_le.mpr ht1]
  · simp [accept, findEntry, setEntry, Nat.not_le.mpr ht2, Ne.symm h12]
  · simp [accept, findEntry, setEntry, Nat.not_le.mpr ht3, Ne.symm h13, Ne.symm h23]
  · simp [tick, hte]

/-- C3 witness: the scenario evaluated for correlation `c2`, responders
`A`, `B`, `C` replying at times 1, 2, 3 against deadline 100, and the
expiry sweep at time 100. -/
theorem correlator_completion_witness :
    accept [("c2", (⟨3, [("A", "x"), ("B", "y")], 100, .pending⟩ : Entry))] "c2" "C" "z" 3 =
      (.Completed, [("c2", ⟨3, [("A", "x"), ("B", "y"), ("C", "z")], 100, .resolved⟩)]) ∧
    tick [("c2", (⟨3, [("A", "x"), ("B", "y")], 100, .pending⟩ : Entry))] 100 =
      [("c2", ⟨3, [("A", "x"), ("B", "y")], 100, .expired⟩)] :=
  ⟨(correlator_completion "c2" "A" "B" "C" "x" "y" "z" 100 1 2 3 100
      (by decide) (by decide) (by decide) (by decide) (by decide) (by decide)
      (by decide)).2.2.2.1,
   (correlator_completion "c2" "A" "B" "C" "x" "y" "z" 100 1 2 3 100
      (by decide) (by decide) (by decide) (by decide) (by decide) (by decide)
      (by decide)).2.2.2.2⟩

/-- Helper: replacing the entry stored under a present correlation id is
observed by the next read. -/
theorem findEntry_setEntry (t : Table) (cid : String) (x e : Entry)
    (h : findEntry t cid = some e) :
    findEntry (setEntry t cid x) cid = some x := by
  induction t with
  | nil => simp [findEntry] at h
  | cons p rest ih =>
    by_cases hk : p.fst = cid
    · simp [setEntry, findEntry, hk]
    · have h2 : findEntry rest cid = some e := by
        simpa [findEntry, hk] using h
      simpa [setEntry, findEntry, hk] using ih h2

/-- C5. Duplicate responder: for every correlation entry still pending,
once a reply from a responder has been recorded (first accept returning
`Accepted` or `Completed`), a second reply from the same responder id
before the deadline returns `DuplicateResponder`, leaves the table —
hence the first reply and the collected count — unchanged, and the entry
holds exactly the original replies plus the first reply. -/
theorem duplicate_responder (t : Table) (cid rid reply reply2 : String)
    (now now2 : Nat) (e : Entry)
    (hfind : findEntry t cid = some e) (hpend : e.lstate = .pending)
    (hnow : now < e.deadline) (hnow2 : now2 < e.deadline)
    (hnew : rid ∉ e.replies.map Prod.fst) :
    ((accept t cid rid reply now).fst = .Accepted ∨
      (accept t cid rid reply now).fst = .Completed) ∧
    accept (accept t cid rid reply now).snd cid rid reply2 now2 =
      (.DuplicateResponder, (accept t cid rid reply now).snd) ∧
    (findEntry (accept t cid rid reply now).snd cid).map Entry.replies =
      some (e.replies ++ [(rid, reply)]) := by
  obtain ⟨exp, rs, dl, st⟩ := e
  simp only at hpend hnow hnow2 hnew
  subst hpend
  by_cases hc : exp ≤ (rs ++ [(rid, reply)]).length
  · have hc1 : exp ≤ rs.length + 1 := by simpa using hc
    have ha : accept t cid rid reply now =
        (.Completed, setEntry t cid ⟨exp, rs ++ [(rid, reply)], dl, .resolved⟩) := by
      simp [accept, hfind, Nat.not_le.mpr hnow, hnew, hc1]
    have hf : findEntry (setEntry t cid ⟨exp, rs ++ [(rid, reply)], dl, .resolved⟩) cid =
        some ⟨exp, rs ++ [(rid, reply)], dl, .resolved⟩ :=
      findEntry_setEntry t cid _ _ hfind
    rw [ha]
    refine ⟨Or.inr rfl, ?_, ?_⟩
    · simp [accept, hf]
    · simp [hf]
  · have hc1 : rs.length + 1 < exp := by
      have := Nat.lt_of_not_le hc
      simpa using this
    have ha : accept t cid rid reply now =
        (.Accepted, setEntry t cid ⟨exp, rs ++ [(rid, reply)], dl, .pending⟩) := by
      simp [accept, hfind, Nat.not_le.mpr hnow, hnew, Nat.not_le.mpr hc1]
    have hf : findEntry (setEntry t cid ⟨exp, rs ++ [(rid, reply)], dl, .pending⟩) cid =
        some ⟨exp, rs ++ [(rid, reply)], dl, .pending⟩ :=
      findEntry_setEntry t cid _ _ hfind
    rw [ha]
    refine ⟨Or.inl rfl, ?_, ?_⟩
    · simp [accept, hf, Nat.not_le.mpr hnow2]
    · simp [hf]

/-- C5 witness: correlation `c1` expecting 3 replies with deadline 100:
responder `R` replies at time 5; its second reply at time 6 returns
`DuplicateResponder` and leaves the table unchanged. -/
theorem duplicate_responder_witness :
    accept (accept [("c1", (⟨3, [], 100, .pending⟩ : Entry))] "c1" "R" "a" 5).snd
        "c1" "R" "b" 6 =
      (.DuplicateResponder,
        (accept [("c1", (⟨3, [], 100, .pending⟩ : Entry))] "c1" "R" "a" 5).snd) :=
  (duplicate_responder [("c1", ⟨3, [], 100, .pending⟩)] "c1" "R" "a" "b" 5 6
      ⟨3, [], 100, .pending⟩ (by decide) rfl (by decide) (by decide) (by decide)).2.1

/-- C8. Negative-acknowledgement finality: whenever the inbound handler
answers a message with a synchronous negative acknowledgement, it emits
no asynchronous callback at all — in particular none for that
correlation id — afterwards. -/
theorem nack_finality (payload : List Nat) (hs : HeaderString)
    (resolvePublicKey : String → String → Option Nat) (now leeway : Nat)
    (cid action : String) (business : String → List Nat → Option String)
    (err : String)
    (h : (handleInbound payload hs resolvePublicKey now leeway cid action business).fst =
      .nack err) :
    (handleInbound payload hs resolvePublicKey now leeway cid action business).snd = [] := by
  unfold handleInbound at h ⊢
  by_cases ha : action ∈ ACTIONS
  · rw [if_pos ha] at h ⊢
    by_cases hv : verify payload hs resolvePublicKey now leeway = .Valid
    · rw [if_pos hv] at h ⊢
      cases hb : business action payload
      · simp [hb] at h
      · simp [hb] at h
    · rw [if_neg hv]
  · rw [if_neg ha]

/-- C8 witness: a message with an unparseable authorization header on the
`search` endpoint is nacked with `malformed_header` and produces no
emission. -/
theorem nack_finality_witness :
    (handleInbound [1] (.garbage "nonsense") (fun _ _ => some 5) 0 0 "c9" "search"
      (fun _ _ => some "resp")).snd = [] :=
  nack_finality [1] (.garbage "nonsense") (fun _ _ => some 5) 0 0 "c9" "search"
    (fun _ _ => some "resp") "malformed_header" (by decide)

end ONDC
